import Mathlib

/-!
Verification development for the two scripts of the repository:
`examples/api-client.py` (a REST client for the Zephyr IDE extension API) and
`resources/get_board_list_pre_v3_6_0.py` (a board-listing CLI utility).

Python strings are modelled as Lean `String`s; the Python string operations
used by the scripts (`rstrip`, `lstrip`, `upper`, truthiness) are defined below
on the underlying character lists, matching Python semantics.  The HTTP
library (`requests`) and the regex / board-discovery collaborators are external
to the repository and are modelled as oracles passed in as function arguments.
-/

/-! ## Python string primitives -/

/-- Python `s.rstrip(c)` for a single character: removes every trailing `c`. -/
def pyRstrip (ch : Char) (s : String) : String :=
  ⟨((s.data.reverse.dropWhile (fun c => c == ch))).reverse⟩

/-- Python `s.lstrip(c)` for a single character: removes every leading `c`. -/
def pyLstrip (ch : Char) (s : String) : String :=
  ⟨s.data.dropWhile (fun c => c == ch)⟩

/-- Python `s.upper()` (ASCII range, which is all the scripts use). -/
def pyUpper (s : String) : String :=
  ⟨s.data.map Char.toUpper⟩

/-- Python truthiness of an optional string: `None` and `""` are falsy. -/
def pyTruthy : Option String → Bool
  | none => false
  | some s => if s = "" then false else true

/-! ## JSON values

POST bodies and response payloads are JSON-like Python values. -/

inductive Json where
  | null : Json
  | bool (b : Bool) : Json
  | str (s : String) : Json
  | num (n : Int) : Json
  | obj (fields : List (String × Json)) : Json

/-- The keys of a JSON object (empty for non-objects). -/
def Json.keys : Json → List String
  | .obj fields => fields.map Prod.fst
  | _ => []

/-! ## The HTTP collaborator (`requests`)

`_request` either calls `requests.get(url, headers=...)` or
`requests.post(url, json=data, headers=...)`; the library answers with an HTTP
response (already-parsed JSON body plus status code) or raises a
`requests.RequestException` (transport failure).  It is modelled as an oracle
`net : NetCall → HttpOutcome`. -/

structure HttpResponse where
  json : Json
  status_code : Nat

inductive NetCall where
  | get (url : String) (headers : List (String × String)) : NetCall
  | post (url : String) (data : Option Json) (headers : List (String × String)) : NetCall

inductive HttpOutcome where
  | response (r : HttpResponse) : HttpOutcome
  | requestException (msg : String) : HttpOutcome

/-- Python exceptions that `_request` can raise to its caller. -/
inductive PyError where
  | valueError (msg : String) : PyError
deriving DecidableEq

/-! ## The API client (`examples/api-client.py`) -/

/-- `ZephyrIdeClient.__init__` state: `base_url`, `api_key`, `headers`. -/
structure ZephyrIdeClient where
  base_url : String
  api_key : Option String
  headers : List (String × String)

/-- `ZephyrIdeClient.__init__(base_url, api_key)` (lines 15-20):
strips trailing slashes from `base_url`, starts headers with Content-Type and
adds `X-API-Key` when `api_key` is truthy. -/
def initClient (base_url : String) (api_key : Option String) : ZephyrIdeClient :=
  { base_url := pyRstrip '/' base_url
    api_key := api_key
    headers :=
      [("Content-Type", "application/json")] ++
        (if pyTruthy api_key then [("X-API-Key", api_key.getD "")] else []) }

/-- The URL composed by `_request` (line 24):
`f"{self.base_url}/api/{endpoint.lstrip('/')}"`. -/
def requestUrl (c : ZephyrIdeClient) (endpoint : String) : String :=
  c.base_url ++ "/api/" ++ pyLstrip '/' endpoint

/-- The network call `_request` issues (lines 26-31): GET or POST with the
client headers, `none` when the method is unsupported. -/
def dispatchCall (c : ZephyrIdeClient) (method endpoint : String)
    (data : Option Json) : Option NetCall :=
  if pyUpper method == "GET" then
    some (.get (requestUrl c endpoint) c.headers)
  else if pyUpper method == "POST" then
    some (.post (requestUrl c endpoint) data c.headers)
  else
    none

/-- The synthesized payload of the `except requests.RequestException` branch
(line 35). -/
def connectionErrorPayload (msg : String) : Json :=
  Json.obj [("success", Json.bool false),
            ("error", Json.str ("Connection error: " ++ msg))]

/-- Lines 33-35: a received response becomes `(response.json(), status_code)`;
a raised `RequestException` is folded into the synthetic pair with status 0. -/
def handleOutcome : HttpOutcome → Except PyError (Json × Nat)
  | .response r => .ok (r.json, r.status_code)
  | .requestException msg => .ok (connectionErrorPayload msg, 0)

/-- `ZephyrIdeClient._request(method, endpoint, data)` (lines 22-35).
The `raise ValueError` of line 31 is not a `requests.RequestException`, so the
`except` clause does not catch it: it surfaces as `Except.error`. -/
def _request (c : ZephyrIdeClient) (net : NetCall → HttpOutcome)
    (method endpoint : String) (data : Option Json) : Except PyError (Json × Nat) :=
  match dispatchCall c method endpoint data with
  | some call => handleOutcome (net call)
  | none => .error (.valueError ("Unsupported method: " ++ method))

/-- A conditionally inserted body field: Python `if x: data[key] = x`. -/
def optField (key : String) : Option String → List (String × Json)
  | none => []
  | some s => if s = "" then [] else [(key, Json.str s)]

/-- The POST body built by `build_project` (lines 49-56). -/
def buildProjectData (project_name build_name : Option String)
    (pristine : Bool) : Json :=
  Json.obj ([("pristine", Json.bool pristine)] ++
    optField "projectName" project_name ++ optField "buildName" build_name)

/-- The POST body built by `flash_project` (lines 58-65). -/
def flashProjectData (project_name build_name : Option String) : Json :=
  Json.obj (optField "projectName" project_name ++ optField "buildName" build_name)

/-- `get_status` (lines 37-39). -/
def get_status (c : ZephyrIdeClient) (net : NetCall → HttpOutcome) :=
  _request c net "GET" "/status" none

/-- `list_projects` (lines 41-43). -/
def list_projects (c : ZephyrIdeClient) (net : NetCall → HttpOutcome) :=
  _request c net "GET" "/projects" none

/-- `get_workspace_config` (lines 45-47). -/
def get_workspace_config (c : ZephyrIdeClient) (net : NetCall → HttpOutcome) :=
  _request c net "GET" "/workspace/config" none

/-- `build_project` (lines 49-56). -/
def build_project (c : ZephyrIdeClient) (net : NetCall → HttpOutcome)
    (project_name build_name : Option String) (pristine : Bool) :=
  _request c net "POST" "/build" (some (buildProjectData project_name build_name pristine))

/-- `flash_project` (lines 58-65). -/
def flash_project (c : ZephyrIdeClient) (net : NetCall → HttpOutcome)
    (project_name build_name : Option String) :=
  _request c net "POST" "/flash" (some (flashProjectData project_name build_name))

/-! ## The board lister (`resources/get_board_list_pre_v3_6_0.py`)

`re.compile` and `list_boards.find_boards` are external collaborators.
`re.compile` is modelled as an oracle returning either a compiled matcher (the
truthiness of `pattern.search(s)`) or the `re.error` raised on an invalid
pattern; the discovery collaborator is modelled by the list of board records it
yields, in order.  Emitted output (`log.inf` lines) is modelled as the returned
list of rendered strings. -/

/-- A board record yielded by the discovery collaborator: `name`, `arch`,
`dir` (the directory rendered as a string, as `str.format` does). -/
structure Board where
  name : String
  arch : String
  dir : String

/-- The CLI arguments the script parses (lines 34-44): `--format` (short form
`-f`) and `--name` (short form `-n`, dest `name_re`). -/
structure Args where
  name_re : Option String
  format : String

/-- Field lookup for the named placeholders `{name}`, `{arch}`, `{dir}` of the
format template.  (The script only ever supplies these three keywords to
`str.format`; other field names would raise, which no claim exercises, so they
render as empty here.) -/
def fieldValue (b : Board) (field : String) : String :=
  if field = "name" then b.name
  else if field = "arch" then b.arch
  else if field = "dir" then b.dir
  else ""

/-- One pass of Python `str.format` over the template characters: outside
braces characters are copied; between `\x7b` and `\x7d` a field name is
collected and substituted once (substituted text is not re-scanned). -/
def pyFormatAux (b : Board) : List Char → Option (List Char) → List Char
  | [], _ => []
  | c :: rest, some acc =>
      if c = '\x7d' then (fieldValue b ⟨acc.reverse⟩).data ++ pyFormatAux b rest none
      else pyFormatAux b rest (some (c :: acc))
  | c :: rest, none =>
      if c = '\x7b' then pyFormatAux b rest (some [])
      else c :: pyFormatAux b rest none

/-- `args.format.format(name=board.name, arch=board.arch, dir=board.dir)`
(lines 31-32). -/
def pyFormat (template : String) (b : Board) : String :=
  ⟨pyFormatAux b template.data none⟩

/-- Lines 22-25: `name_re = re.compile(args.name_re)` when a pattern was
given, else `name_re = None`; a `re.error` of the compile oracle propagates. -/
def compileNameRe (compile : String → Except String (String → Bool)) :
    Option String → Except String (Option (String → Bool))
  | some pat => (compile pat).map some
  | none => .ok none

/-- `get_boards(args)` (lines 21-32): compile the optional name filter, then
iterate the records the discovery collaborator yields, in order; a record
whose name fails `name_re.search` is skipped, every other record is rendered
through the format template and emitted as one line. -/
def get_boards (compile : String → Except String (String → Bool))
    (args : Args) (found : List Board) : Except String (List String) :=
  match compileNameRe compile args.name_re with
  | .error e => .error e
  | .ok name_re =>
      .ok (found.filterMap (fun board =>
        match name_re with
        | some re => if re board.name then some (pyFormat args.format board) else none
        | none => some (pyFormat args.format board)))

/-- `Path(os.environ.get('ZEPHYR_BASE'))` (line 15): `os.environ.get` returns
`None` when the variable is absent, and `Path(None)` raises `TypeError`. -/
def pathOfNoneError : String :=
  "TypeError: argument should be a str or an os.PathLike object, not NoneType"

/-- Module-level `ZEPHYR_BASE = Path(os.environ.get('ZEPHYR_BASE'))`. -/
def zephyrBase (env : String → Option String) : Except String String :=
  match env "ZEPHYR_BASE" with
  | none => .error pathOfNoneError
  | some s => .ok s

/-- The script body (lines 15-45): evaluate `ZEPHYR_BASE` first (a missing
variable raises before discovery is ever reached), then run `get_boards`.
Pinning `args.arch_roots`/`args.soc_roots` to `ZEPHYR_BASE` only parametrizes
the external discovery collaborator, whose yielded records are `found`. -/
def boardListerMain (env : String → Option String)
    (compile : String → Except String (String → Bool))
    (args : Args) (found : List Board) : Except String (List String) :=
  match zephyrBase env with
  | .error e => .error e
  | .ok _ => get_boards compile args found

/-- Spec-side (refinement) definition for claim C2's wording: stripping a
single leading slash from the endpoint, to be compared with the `lstrip`
behaviour of the source. -/
def stripSingleLeadingSlash (s : String) : String :=
  match s.data with
  | '/' :: rest => ⟨rest⟩
  | _ => s

/-- Which records `get_boards` keeps (used to state the filtering theorem). -/
def boardKeep (name_re : Option (String → Bool)) (b : Board) : Bool :=
  match name_re with
  | some re => re b.name
  | none => true

/-! ## Helper lemmas -/

/-- A guarded `filterMap` is a `filter` followed by a `map`. -/
theorem filterMap_guard {α β : Type} (p : α → Bool) (f : α → β) (l : List α) :
    l.filterMap (fun a => if p a then some (f a) else none) =
      (l.filter p).map f := by
  induction l with
  | nil => rfl
  | cons a t ih =>
      rw [List.filterMap_cons, List.filter_cons]
      cases h : p a <;> simp [h, ih]

/-- The head of `dropWhile p` never satisfies `p`. -/
theorem dropWhile_head_all {α : Type} (p : α → Bool) (l : List α) :
    ((l.dropWhile p).head?).all (fun a => !p a) = true := by
  induction l with
  | nil => rfl
  | cons a t ih =>
      rw [List.dropWhile_cons]
      cases h : p a <;> simp [h, ih]

/-! ## Concrete fixtures used by witnesses and counterexamples -/

/-- A client constructed with the default base URL and no API key. -/
def clientNone : ZephyrIdeClient := initClient "http://localhost:8080" none

/-- A network oracle whose every call raises a transport error. -/
def netBoom : NetCall → HttpOutcome := fun _ => .requestException "boom"

/-- Two concrete board records. -/
def boardsW : List Board := [⟨"a1", "x", "/d1"⟩, ⟨"b1", "y", "/d2"⟩]

/-- A regex-compile oracle that succeeds with the matcher `(· == "a1")`. -/
def compileW : String → Except String (String → Bool) :=
  fun _ => .ok (fun s => s == "a1")

/-- A regex-compile oracle that fails, as `re.compile` does on `"("`. -/
def compileBad : String → Except String (String → Bool) :=
  fun _ => .error "re.error: missing ), unterminated subpattern"

/-! ## Claim theorems -/

/-- Claim C1: for every `_request` call with a supported method, a transport
error raised by the HTTP library is not re-raised but folded into the returned
pair `({success: false, error: "Connection error: <details>"}, 0)`; in all
cases exactly one `(payload, statusCode)` pair is returned, and status code 0
is returned only on transport failure (HTTP responses carry nonzero status
codes). -/
theorem request_transport_failure_recovered
    (c : ZephyrIdeClient) (net : NetCall → HttpOutcome)
    (method endpoint : String) (data : Option Json)
    (hm : pyUpper method = "GET" ∨ pyUpper method = "POST")
    (hnet : ∀ call r, net call = .response r → r.status_code ≠ 0) :
    ∃ call, dispatchCall c method endpoint data = some call ∧
      (∀ msg, net call = .requestException msg →
        _request c net method endpoint data = .ok (connectionErrorPayload msg, 0)) ∧
      ∃ p s, _request c net method endpoint data = .ok (p, s) ∧
        (s = 0 → ∃ msg, net call = .requestException msg) := by
  have hd : ∃ call, dispatchCall c method endpoint data = some call := by
    rcases hm with h | h
    · exact ⟨.get (requestUrl c endpoint) c.headers, by unfold dispatchCall; rw [h]; rfl⟩
    · exact ⟨.post (requestUrl c endpoint) data c.headers, by unfold dispatchCall; rw [h]; rfl⟩
  obtain ⟨call, hd⟩ := hd
  have hreq : _request c net method endpoint data = handleOutcome (net call) := by
    unfold _request
    rw [hd]
  refine ⟨call, hd, ?_, ?_⟩
  · intro msg hmsg
    rw [hreq, hmsg]
    rfl
  · cases ho : net call with
    | response r =>
        refine ⟨r.json, r.status_code, by rw [hreq, ho]; rfl, ?_⟩
        intro h0
        exact absurd h0 (hnet call r ho)
    | requestException msg =>
        exact ⟨connectionErrorPayload msg, 0, by rw [hreq, ho]; rfl, fun _ => ⟨msg, rfl⟩⟩

/-- Witness for C1 at a concrete client, oracle and input. -/
theorem request_transport_failure_recovered_witness :
    _request clientNone netBoom "GET" "/status" none =
      .ok (connectionErrorPayload "boom", 0) := by
  obtain ⟨call, -, hexn, -⟩ :=
    request_transport_failure_recovered clientNone netBoom "GET" "/status" none
      (Or.inl (by decide)) (fun _ _ hr => nomatch hr)
  exact hexn "boom" rfl

/-- Claim C4: for every method whose upper-cased form is neither GET nor POST,
`_request` raises the unsupported-method `ValueError` to its caller (it is not
converted into a returned pair), and the result does not depend on the network
oracle at all: no network activity happens. -/
theorem unsupported_method_raises
    (c : ZephyrIdeClient) (net : NetCall → HttpOutcome)
    (method endpoint : String) (data : Option Json)
    (h1 : pyUpper method ≠ "GET") (h2 : pyUpper method ≠ "POST") :
    _request c net method endpoint data =
      .error (.valueError ("Unsupported method: " ++ method)) := by
  unfold _request dispatchCall
  simp [beq_iff_eq, h1, h2]

/-- Witness for C4: a DELETE request fails with the unsupported-method error. -/
theorem unsupported_method_raises_witness :
    _request clientNone netBoom "DELETE" "/projects" none =
      .error (.valueError "Unsupported method: DELETE") :=
  unsupported_method_raises clientNone netBoom "DELETE" "/projects" none
    (by decide) (by decide)

/-- Claim C10, counterexample to the claim as stated: `_request` with method
`"put"` and with `"put".upper() = "PUT"` do not behave identically — both
raise, but the unsupported-method error message quotes the original string. -/
theorem method_case_cx :
    _request clientNone netBoom "put" "/build" none ≠
      _request clientNone netBoom "PUT" "/build" none := by
  intro h
  have h1 : (Except.error (.valueError "Unsupported method: put") :
      Except PyError (Json × Nat)) = .error (.valueError "Unsupported method: PUT") := h
  injection h1 with h2
  injection h2 with h3
  exact absurd h3 (by decide)

/-- Claim C10 as amended: for every method whose upper-cased form is GET or
POST, `_request` on the method and on its upper-cased form behave
identically (the method is matched case-insensitively); for other methods the
two calls differ only in the quoted method name of the raised error. -/
theorem method_case_insensitive
    (c : ZephyrIdeClient) (net : NetCall → HttpOutcome)
    (method endpoint : String) (data : Option Json)
    (hm : pyUpper method = "GET" ∨ pyUpper method = "POST") :
    _request c net method endpoint data =
      _request c net (pyUpper method) endpoint data := by
  rcases hm with h | h <;>
    · unfold _request dispatchCall
      rw [h]
      rfl

/-- Witness for C10's amended theorem: `"get"` behaves like `"GET"`. -/
theorem method_case_insensitive_witness :
    _request clientNone netBoom "get" "/status" none =
      _request clientNone netBoom "GET" "/status" none := by
  have h := method_case_insensitive clientNone netBoom "get" "/status" none
    (Or.inl (by decide))
  have e : pyUpper "get" = "GET" := by decide
  rw [e] at h
  exact h

/-- Claim C2, counterexample to the claim as stated: for the endpoint
`"//status"` the composed URL is not `baseUrl ++ "/api/" ++` the endpoint with
a single leading slash stripped — `lstrip('/')` removes every leading slash,
not one. -/
theorem requestUrl_single_strip_cx :
    requestUrl clientNone "//status" = "http://localhost:8080/api/status" ∧
    requestUrl clientNone "//status" ≠
      clientNone.base_url ++ "/api/" ++ stripSingleLeadingSlash "//status" := by
  constructor
  · rfl
  · decide

/-- Claim C2 as amended: `_request` composes the URL by joining the endpoint
onto `baseUrl ++ "/api/"` after stripping all leading slashes from the
endpoint, so for any endpoint the composed URL has exactly one slash between
`/api` and the endpoint (the part after `/api/` never begins with `/`). -/
theorem requestUrl_strips_all_leading_slashes
    (c : ZephyrIdeClient) (endpoint : String) :
    requestUrl c endpoint = c.base_url ++ "/api/" ++ pyLstrip '/' endpoint ∧
    ((pyLstrip '/' endpoint).data.head?).all (fun ch => !(ch == '/')) = true := by
  refine ⟨rfl, ?_⟩
  simpa [pyLstrip] using dropWhile_head_all (fun ch => ch == '/') endpoint.data

/-- Claim C3: `build_project()` with no arguments POSTs exactly the body
`{"pristine": false}` (no projectName or buildName key), and
`build_project("foo", "debug", pristine=True)` POSTs exactly
`{"pristine": true, "projectName": "foo", "buildName": "debug"}`. -/
theorem build_project_exact_bodies
    (c : ZephyrIdeClient) (net : NetCall → HttpOutcome) :
    build_project c net none none false =
      _request c net "POST" "/build" (some (Json.obj [("pristine", Json.bool false)])) ∧
    build_project c net (some "foo") (some "debug") true =
      _request c net "POST" "/build" (some (Json.obj
        [("pristine", Json.bool true), ("projectName", Json.str "foo"),
         ("buildName", Json.str "debug")])) :=
  ⟨rfl, rfl⟩

/-- Claim C8, counterexample to the claim as stated: an API key *is* supplied
at construction — the empty string — yet the client's headers carry no
`X-API-Key` entry (Python's `if api_key:` is false for `""`). -/
theorem api_key_empty_string_cx :
    (initClient "http://localhost:8080" (some "")).api_key = some "" ∧
    "X-API-Key" ∉ ((initClient "http://localhost:8080" (some "")).headers.map Prod.fst) := by
  constructor
  · rfl
  · decide

/-- Claim C8 as amended: a non-empty API key supplied at construction appears
as the `X-API-Key` header entry; with no key (or the falsy empty string) no
such entry exists; and every request — GET and POST alike — goes on the wire
carrying exactly the client's headers. -/
theorem api_key_header_policy
    (base_url : String) (api_key : Option String)
    (net : NetCall → HttpOutcome) (endpoint : String) (data : Option Json) :
    (∀ k, api_key = some k → k ≠ "" →
      ("X-API-Key", k) ∈ (initClient base_url api_key).headers) ∧
    ((api_key = none ∨ api_key = some "") →
      ∀ v, ("X-API-Key", v) ∉ (initClient base_url api_key).headers) ∧
    _request (initClient base_url api_key) net "GET" endpoint data =
      handleOutcome (net (.get (requestUrl (initClient base_url api_key) endpoint)
        (initClient base_url api_key).headers)) ∧
    _request (initClient base_url api_key) net "POST" endpoint data =
      handleOutcome (net (.post (requestUrl (initClient base_url api_key) endpoint) data
        (initClient base_url api_key).headers)) := by
  refine ⟨?_, ?_, rfl, rfl⟩
  · intro k hk hne
    subst hk
    simp [initClient, pyTruthy, hne]
  · intro h v
    rcases h with h | h <;> subst h <;> simp [initClient, pyTruthy]

/-- Witness for C8's amended theorem: a concrete non-empty key is carried. -/
theorem api_key_header_policy_witness :
    ("X-API-Key", "secret") ∈ (initClient "http://localhost:8080" (some "secret")).headers :=
  (api_key_header_policy "http://localhost:8080" (some "secret") netBoom "/status" none).1
    "secret" rfl (by decide)

/-- Claim C9: `build_project` and `flash_project` treat a falsy (empty-string)
`project_name` or `build_name` exactly like an absent one: the body is the
same as with the argument absent, and the corresponding key never appears. -/
theorem falsy_fields_omitted (pn bn : Option String) (pristine : Bool) :
    buildProjectData (some "") bn pristine = buildProjectData none bn pristine ∧
    buildProjectData pn (some "") pristine = buildProjectData pn none pristine ∧
    flashProjectData (some "") bn = flashProjectData none bn ∧
    flashProjectData pn (some "") = flashProjectData pn none ∧
    "projectName" ∉ (buildProjectData (some "") bn pristine).keys ∧
    "buildName" ∉ (flashProjectData pn (some "")).keys := by
  refine ⟨rfl, rfl, rfl, rfl, ?_, ?_⟩
  · rcases bn with _ | s
    · simp [buildProjectData, optField, Json.keys]
    · by_cases hs : s = "" <;> simp [buildProjectData, optField, Json.keys, hs]
  · rcases pn with _ | s
    · simp [flashProjectData, optField, Json.keys]
    · by_cases hs : s = "" <;> simp [flashProjectData, optField, Json.keys, hs]

/-- An always-`some` `filterMap` is a `map` (helper for C5's no-filter case). -/
theorem filterMap_some_eq_map {α β : Type} (f : α → β) (l : List α) :
    l.filterMap (fun a => some (f a)) = l.map f := by
  induction l with
  | nil => rfl
  | cons a t ih => simp [List.filterMap_cons, ih]

/-- Claim C5: when the name filter compiles (or none is given), `get_boards`
walks the collaborator's records once, in order, and emits exactly one
rendered line — the format template applied to name, arch, dir — per record
kept by the filter (every record when there is no filter); non-matching
records are skipped silently and a fully filtered or empty sequence yields
zero lines, no error. -/
theorem get_boards_filters_in_order
    (compile : String → Except String (String → Bool))
    (args : Args) (found : List Board) (name_re : Option (String → Bool))
    (h : compileNameRe compile args.name_re = .ok name_re) :
    get_boards compile args found =
      .ok ((found.filter (boardKeep name_re)).map (pyFormat args.format)) := by
  unfold get_boards
  rw [h]
  cases name_re with
  | some re =>
      exact congrArg Except.ok
        (filterMap_guard (fun b => re b.name) (pyFormat args.format) found)
  | none =>
      have h1 : found.filterMap (fun board : Board => some (pyFormat args.format board)) =
          found.map (pyFormat args.format) := filterMap_some_eq_map _ _
      have h2 : found.filter (boardKeep none) = found :=
        List.filter_eq_self.mpr (fun a _ => rfl)
      exact congrArg Except.ok (h1.trans (by rw [h2]))

/-- Witness for C5: with matcher `(· == "a1")` on two boards, exactly the
first board is rendered, via the default template. -/
theorem get_boards_filters_in_order_witness :
    get_boards compileW ⟨some "a1", "{name}"⟩ boardsW = .ok ["a1"] := by
  have h := get_boards_filters_in_order compileW ⟨some "a1", "{name}"⟩ boardsW
    (some (fun s => s == "a1")) rfl
  rw [h]
  rfl

/-- Claim C6: an invalid filter pattern makes `get_boards` fail with the
`re.error` of the compile step, whatever boards the collaborator would have
yielded — no record is processed, no partial output exists. -/
theorem invalid_regex_fatal
    (compile : String → Except String (String → Bool))
    (pat e fmt : String) (found : List Board)
    (h : compile pat = .error e) :
    get_boards compile ⟨some pat, fmt⟩ found = .error e := by
  simp only [get_boards, compileNameRe, h]
  rfl

/-- Witness for C6 at a concrete failing compile oracle. -/
theorem invalid_regex_fatal_witness :
    get_boards compileBad ⟨some "(", "{name}"⟩ boardsW =
      .error "re.error: missing ), unterminated subpattern" :=
  invalid_regex_fatal compileBad "(" "re.error: missing ), unterminated subpattern"
    "{name}" boardsW rfl

/-- Claim C7: with no `ZEPHYR_BASE` in the environment, the script dies with
the `TypeError` of `Path(None)` at module initialization — before discovery;
the result is this error whatever the collaborators would have produced. -/
theorem missing_zephyr_base_fatal
    (env : String → Option String)
    (compile : String → Except String (String → Bool))
    (args : Args) (found : List Board)
    (h : env "ZEPHYR_BASE" = none) :
    boardListerMain env compile args found = .error pathOfNoneError := by
  unfold boardListerMain zephyrBase
  rw [h]

/-- Witness for C7 at the empty environment. -/
theorem missing_zephyr_base_fatal_witness :
    boardListerMain (fun _ => none) compileW ⟨none, "{name}"⟩ boardsW =
      .error pathOfNoneError :=
  missing_zephyr_base_fatal (fun _ => none) compileW ⟨none, "{name}"⟩ boardsW rfl
